import Mathlib

/-
Verification of the shared cache-client module (services/redis.py) and the
stubbed billing endpoints (services/billing.py).

The cache client is embedded as an explicit state machine.  The module-level
globals `client` and `_initialized` become fields of `Redis.RedisState`; the
handle constructed by `redis.from_url` is modelled as a natural number drawn
from a freshness counter, so that distinct constructions yield distinct
handles.  Ghost counters (`initCount`, `pingCount`, and the aclose count
returned by `close`) record how often the underlying construction, liveness
probe, and handle shutdown were invoked; they alter no control flow.

The critical section of `initialize_async` runs entirely under the module
lock `_init_lock`, so concurrent executions serialize: concurrency is
modelled by composing critical-section executions in sequence.  The outcome
of each `ping` is supplied by an oracle indexed by the probe counter.
-/

/-- Decidable equality for `Except`, used to evaluate concrete runs. -/
instance {ε α : Type} [DecidableEq ε] [DecidableEq α] : DecidableEq (Except ε α) := fun x y =>
  match x, y with
  | .ok a, .ok b =>
    if h : a = b then .isTrue (by rw [h]) else .isFalse (by intro he; cases he; exact h rfl)
  | .error a, .error b =>
    if h : a = b then .isTrue (by rw [h]) else .isFalse (by intro he; cases he; exact h rfl)
  | .ok _, .error _ => .isFalse (by intro he; cases he)
  | .error _, .ok _ => .isFalse (by intro he; cases he)

namespace Redis

/-- Error kinds surfaced by the module.  `configError` stands for the
ValueError raised when REDIS_URL is missing or rejected by `from_url`
(the ConfigError of the design); `connError` stands for transport, probe
and timeout failures (the ConnectionError of the design). -/
inductive RErr where
  | configError
  | connError
deriving DecidableEq, Repr

/-- Environment seen by `initialize`: the value of the REDIS_URL variable,
`none` when the variable is not set. -/
structure Env where
  redisUrl : Option String
deriving DecidableEq, Repr

/-- State held in the module globals of services/redis.py, plus ghost
counters.  `client` and `initialized` mirror the globals `client` and
`_initialized`; `nextHandle` is the freshness counter for modelled handles;
`initCount` counts executions of the client construction in `initialize`;
`pingCount` counts liveness probes issued. -/
structure RedisState where
  client : Option Nat
  initialized : Bool
  nextHandle : Nat
  initCount : Nat
  pingCount : Nat
deriving DecidableEq, Repr

/-- State at process start: both globals unset. -/
def initialState : RedisState :=
  { client := none, initialized := false, nextHandle := 0,
    initCount := 0, pingCount := 0 }

/-- Decides whether the first list of characters is an initial segment of
the second. -/
def leadsWith : List Char → List Char → Bool
  | [], _ => true
  | _ :: _, [] => false
  | c :: cs, d :: ds => c = d && leadsWith cs ds

/-- Modelled from the documented interface of the external transport
library: `redis.from_url` parses the URL and raises ValueError when the
scheme is not one of redis, rediss or unix.  The library itself is an
external collaborator, treated as opaque apart from this check. -/
def wellFormedUrl (u : String) : Bool :=
  leadsWith "redis://".data u.data || leadsWith "rediss://".data u.data ||
    leadsWith "unix://".data u.data

/-- Embedding of `initialize` (services/redis.py lines 18-49; the source
name is a reserved word here, hence `initClient`): reads REDIS_URL, raises
ValueError when it is unset or empty (the Python test `if not redis_url`
is a falsiness test, so the empty string also fails), lets `from_url`
reject a malformed URL, and otherwise constructs and returns a fresh
client handle.  No liveness probe is issued here. -/
def initClient (env : Env) (s : RedisState) : Except RErr Nat × RedisState :=
  match env.redisUrl with
  | none => (.error .configError, s)
  | some url =>
    if url = "" then (.error .configError, s)
    else if wellFormedUrl url = false then (.error .configError, s)
    else (.ok s.nextHandle,
          { s with client := some s.nextHandle,
                   nextHandle := s.nextHandle + 1,
                   initCount := s.initCount + 1 })

/-- Embedding of the critical section of `initialize_async`
(services/redis.py lines 52-71), the body under `async with _init_lock`.
When `_initialized` is not yet set, `initialize()` runs (its ValueError
propagates from outside the try block, leaving the state unchanged).
The probe `await client.ping()` then runs unconditionally — also when the
state was already initialized; its outcome is `oracle s.pingCount`.  On
probe success `_initialized` is set and the client is returned; on any
failure inside the try block the handle is discarded, `_initialized` is
cleared and the error propagates.  A ping on a `None` client raises
AttributeError inside the try block and is handled the same way. -/
def initialize_async (env : Env) (oracle : Nat → Bool) (s : RedisState) :
    Except RErr Nat × RedisState :=
  let step : Except RErr RedisState :=
    if s.initialized then Except.ok s
    else
      match initClient env s with
      | (.error e, _) => Except.error e
      | (.ok _, s1) => Except.ok s1
  match step with
  | .error e => (.error e, s)
  | .ok s1 =>
    match s1.client with
    | none => (.error .connError, { s1 with client := none, initialized := false })
    | some h =>
      let s2 := { s1 with pingCount := s1.pingCount + 1 }
      if oracle s1.pingCount then
        (.ok h, { s2 with initialized := true })
      else
        (.error .connError, { s2 with client := none, initialized := false })

/-- Modelled from the spec: the RetryPolicy combinator `retry` of
utils/retry.py, whose source is not included under src.  It re-invokes the
fallible operation, retrying on failure up to `bound` further attempts, and
propagates the last failure once the attempts are exhausted. -/
def retry (op : RedisState → Except RErr Nat × RedisState) :
    Nat → RedisState → Except RErr Nat × RedisState
  | 0, s => op s
  | bound + 1, s =>
    match op s with
    | (.ok a, s1) => (.ok a, s1)
    | (.error _, s1) => retry op bound s1

/-- Embedding of `get_client` (services/redis.py lines 86-91): when the
client is unset or the initialized flag is clear, runs `initialize_async`
through `retry` (discarding the awaited value), then returns the module
global `client`. -/
def get_client (env : Env) (oracle : Nat → Bool) (bound : Nat) (s : RedisState) :
    Except RErr (Option Nat) × RedisState :=
  if s.client = none ∨ s.initialized = false then
    match retry (initialize_async env oracle) bound s with
    | (.error e, s1) => (.error e, s1)
    | (.ok _, s1) => (.ok s1.client, s1)
  else (.ok s.client, s)

/-- Embedding of `close` (services/redis.py lines 74-83): when a handle
exists it is closed (`aclose`) and the global is cleared; `_initialized`
is cleared in every case.  The returned number counts `aclose` calls, so
a call in a handle-free state is observably a no-op on the handle. -/
def close (s : RedisState) : RedisState × Nat :=
  if s.client.isSome then
    ({ s with client := none, initialized := false }, 1)
  else
    ({ s with initialized := false }, 0)

/-- Model of the remote key-value service reached through the client
handle, an external collaborator specified only through its command
interface.  Scalar entries carry the expiry passed by SET (so the expiry
a call passes through is observable), lists are kept in order, and
`subs` records how many subscribers each channel has. -/
structure Store where
  kv : List (String × String × Option Nat)
  lists : List (String × List String)
  subs : List (String × Nat)
deriving DecidableEq, Repr

/-- Store with no entries. -/
def emptyStore : Store := { kv := [], lists := [], subs := [] }

/-- Value stored under a scalar key, with the expiry it was written with. -/
def storeEntry (st : Store) (k : String) : Option (String × Option Nat) :=
  match st.kv.find? (fun e => e.1 = k) with
  | none => none
  | some e => some e.2

/-- Value stored under a scalar key. -/
def storeLookup (st : Store) (k : String) : Option String :=
  match storeEntry st k with
  | none => none
  | some e => some e.1

/-- Behaviour of the SET command: honours NX (no write when the key exists)
and records the expiry exactly as passed; returns `none` (Python None) when
NX suppressed the write and `some true` otherwise. -/
def storeSet (st : Store) (k v : String) (ex : Option Nat) (nx : Bool) :
    Option Bool × Store :=
  if nx && (storeLookup st k).isSome then (none, st)
  else (some true, { st with kv := (k, v, ex) :: st.kv.filter (fun e => e.1 ≠ k) })

/-- Behaviour of the DEL command on one key: removal count is 0 or 1. -/
def storeDelete (st : Store) (k : String) : Nat × Store :=
  if (storeLookup st k).isSome then
    (1, { st with kv := st.kv.filter (fun e => e.1 ≠ k) })
  else (0, st)

/-- List stored under a key; the empty list when the key is absent. -/
def storeList (st : Store) (k : String) : List String :=
  match st.lists.find? (fun e => e.1 = k) with
  | none => []
  | some e => e.2

/-- Behaviour of the RPUSH command: appends and returns the new length. -/
def storeRpush (st : Store) (k : String) (vs : List String) : Nat × Store :=
  let l := storeList st k ++ vs
  (l.length, { st with lists := (k, l) :: st.lists.filter (fun e => e.1 ≠ k) })

/-- Resolution of one LRANGE index: negative indices count from the tail. -/
def normIndex (len : Nat) (i : Int) : Int :=
  if i < 0 then (len : Int) + i else i

/-- Behaviour of the LRANGE command with inclusive bounds. -/
def storeLrange (st : Store) (k : String) (start stop : Int) : List String :=
  let l := storeList st k
  let a := normIndex l.length start
  let b := normIndex l.length stop
  if a < 0 then
    (l.take (b.toNat + 1))
  else
    (l.take (b.toNat + 1)).drop a.toNat

/-- Glob match reduced to the patterns the application uses: a trailing
star matches any continuation, otherwise the match is literal. -/
def globMatch (pat key : String) : Bool :=
  match pat.data.getLast? with
  | some c =>
    if c = '*' then leadsWith (pat.data.dropLast) key.data
    else pat = key
  | none => pat = key

/-- Behaviour of the KEYS command over the scalar and list keyspaces. -/
def storeKeys (st : Store) (pat : String) : List String :=
  (st.kv.map (fun e => e.1) ++ st.lists.map (fun e => e.1)).filter
    (fun k => globMatch pat k)

/-- Subscriber count delivered to by PUBLISH. -/
def storePublish (st : Store) (ch : String) : Nat :=
  match st.subs.find? (fun e => e.1 = ch) with
  | none => 0
  | some e => e.2

/-- Handle returned by `create_pubsub`, bound to the module client. -/
structure PubSub where
  boundClient : Option Nat
deriving DecidableEq, Repr

/-- Combined state: the module globals plus the remote store. -/
structure World where
  rs : RedisState
  store : Store
deriving DecidableEq, Repr

/-- Retry configuration and environment threaded through every operation:
the REDIS_URL environment, the ping outcome oracle, and the retry bound of
the `retry` helper. -/
structure Cfg where
  env : Env
  oracle : Nat → Bool
  bound : Nat

/-- Embedding of `set` (services/redis.py lines 95-98): obtains a ready
client through `get_client`, then delegates to the SET command, passing
`ex` and `nx` through unchanged.  The Python defaults are `ex = None` and
`nx = False`. -/
def set (cfg : Cfg) (key value : String) (ex : Option Nat) (nx : Bool) (w : World) :
    Except RErr (Option Bool) × World :=
  match get_client cfg.env cfg.oracle cfg.bound w.rs with
  | (.error e, rs1) => (.error e, { w with rs := rs1 })
  | (.ok _, rs1) =>
    let (r, st1) := storeSet w.store key value ex nx
    (.ok r, ⟨rs1, st1⟩)

/-- Default of the `ex` parameter of `set` in the source: `ex: int = None`. -/
def set_default_ex : Option Nat := none

/-- Default of the `nx` parameter of `set` in the source: `nx: bool = False`. -/
def set_default_nx : Bool := false

/-- Embedding of `get` (services/redis.py lines 101-105): obtains a ready
client, reads the key, and returns the stored value when the client
returned one, otherwise the caller-supplied default (`default: str = None`
in the source, hence an optional value). -/
def get (cfg : Cfg) (key : String) (dflt : Option String) (w : World) :
    Except RErr (Option String) × World :=
  match get_client cfg.env cfg.oracle cfg.bound w.rs with
  | (.error e, rs1) => (.error e, { w with rs := rs1 })
  | (.ok _, rs1) =>
    let result := storeLookup w.store key
    (.ok (match result with | some v => some v | none => dflt), ⟨rs1, w.store⟩)

/-- Embedding of `delete` (services/redis.py lines 108-111). -/
def delete (cfg : Cfg) (key : String) (w : World) : Except RErr Nat × World :=
  match get_client cfg.env cfg.oracle cfg.bound w.rs with
  | (.error e, rs1) => (.error e, { w with rs := rs1 })
  | (.ok _, rs1) =>
    let (n, st1) := storeDelete w.store key
    (.ok n, ⟨rs1, st1⟩)

/-- Embedding of `publish` (services/redis.py lines 114-117). -/
def publish (cfg : Cfg) (channel message : String) (w : World) :
    Except RErr Nat × World :=
  match get_client cfg.env cfg.oracle cfg.bound w.rs with
  | (.error e, rs1) => (.error e, { w with rs := rs1 })
  | (.ok _, rs1) => (.ok (storePublish w.store channel), ⟨rs1, w.store⟩)

/-- Embedding of `create_pubsub` (services/redis.py lines 120-123): returns
a fresh pubsub handle bound to the ready client. -/
def create_pubsub (cfg : Cfg) (w : World) : Except RErr PubSub × World :=
  match get_client cfg.env cfg.oracle cfg.bound w.rs with
  | (.error e, rs1) => (.error e, { w with rs := rs1 })
  | (.ok c, rs1) => (.ok ⟨c⟩, ⟨rs1, w.store⟩)

/-- Embedding of `rpush` (services/redis.py lines 127-130). -/
def rpush (cfg : Cfg) (key : String) (values : List String) (w : World) :
    Except RErr Nat × World :=
  match get_client cfg.env cfg.oracle cfg.bound w.rs with
  | (.error e, rs1) => (.error e, { w with rs := rs1 })
  | (.ok _, rs1) =>
    let (n, st1) := storeRpush w.store key values
    (.ok n, ⟨rs1, st1⟩)

/-- Embedding of `lrange` (services/redis.py lines 133-136). -/
def lrange (cfg : Cfg) (key : String) (start stop : Int) (w : World) :
    Except RErr (List String) × World :=
  match get_client cfg.env cfg.oracle cfg.bound w.rs with
  | (.error e, rs1) => (.error e, { w with rs := rs1 })
  | (.ok _, rs1) => (.ok (storeLrange w.store key start stop), ⟨rs1, w.store⟩)

/-- Embedding of `keys` (services/redis.py lines 142-145). -/
def keys (cfg : Cfg) (pattern : String) (w : World) :
    Except RErr (List String) × World :=
  match get_client cfg.env cfg.oracle cfg.bound w.rs with
  | (.error e, rs1) => (.error e, { w with rs := rs1 })
  | (.ok _, rs1) => (.ok (storeKeys w.store pattern), ⟨rs1, w.store⟩)

/-- Constant REDIS_KEY_TTL (services/redis.py line 15). -/
def REDIS_KEY_TTL : Nat := 3600 * 24

/-- Model of N first-time `get_client` calls racing: every task passes the
unguarded check `client is None or not _initialized` while the client is
still unset, so every task enters `retry(initialize_async)`.  The lock
`_init_lock` makes the critical sections execute one after the other, so
the race reduces to sequencing `initialize_async`; each task then returns
the module global `client`, exactly as `get_client` does after its awaited
value is discarded.  The list collects the value each caller observes. -/
def concurrentFirstUse (env : Env) (oracle : Nat → Bool) :
    Nat → RedisState → List (Except RErr (Option Nat)) × RedisState
  | 0, s => ([], s)
  | n + 1, s =>
    let p := initialize_async env oracle s
    let res : Except RErr (Option Nat) :=
      match p.1 with
      | .error e => .error e
      | .ok _ => .ok p.2.client
    let rest := concurrentFirstUse env oracle n p.2
    (res :: rest.1, rest.2)

/-- Representative environment carrying a well-formed connection URL. -/
def sampleEnv : Env := ⟨some "redis://localhost:6379"⟩

/-- Run of n racing first-time callers from process start, with a reachable
service: every probe succeeds. -/
def firstUseRun (n : Nat) : List (Except RErr (Option Nat)) × RedisState :=
  concurrentFirstUse sampleEnv (fun _ => true) n initialState

end Redis

namespace Billing

/-- Timestamp model for services/billing.py: the year together with the
remainder of the instant (month, day and time of day), enough to express
the single time computation the endpoints perform,
`datetime.now(timezone.utc).replace(year=datetime.now().year + 1)`. -/
structure DateTime where
  year : Int
  rest : Nat
deriving DecidableEq, Repr

/-- Embedding of `datetime.replace(year=...)`. -/
def replaceYear (t : DateTime) (y : Int) : DateTime := { t with year := y }

/-- Response shape of the check-status endpoint, flattening the literal
dictionary it returns. -/
structure CheckStatusResponse where
  can_run : Bool
  message : String
  subscription_price_id : String
  subscription_plan_name : String
  subscription_minutes_limit : String
deriving DecidableEq, Repr

/-- Embedding of `check_status` (services/billing.py lines 242-257): the
authenticated user id is received from the JWT dependency and the literal
response is returned; no store is consulted. -/
def check_status (current_user_id : String) : CheckStatusResponse :=
  { can_run := true
  , message := "Maximum privileges - billing disabled"
  , subscription_price_id := "maximum_tier"
  , subscription_plan_name := "Maximum Tier (Billing Disabled)"
  , subscription_minutes_limit := "unlimited" }

/-- Response model of the subscription endpoint (the SubscriptionStatus
pydantic model of services/billing.py lines 49-62).  The numeric limits
999999 and 999999.0 are integral, so natural numbers represent them
exactly. -/
structure SubscriptionStatus where
  status : String
  plan_name : Option String
  price_id : Option String
  current_period_end : Option DateTime
  cancel_at_period_end : Bool
  trial_end : Option DateTime
  minutes_limit : Option Nat
  cost_limit : Option Nat
  current_usage : Option Nat
  has_schedule : Bool
  scheduled_plan_name : Option String
  scheduled_price_id : Option String
  scheduled_change_date : Option DateTime
deriving DecidableEq, Repr

/-- Embedding of `get_subscription` (services/billing.py lines 222-240):
a literal response whose only computed field is `current_period_end`, the
current instant with the year advanced by one. -/
def get_subscription (current_user_id : String) (now : DateTime) :
    SubscriptionStatus :=
  { status := "active"
  , plan_name := some "Maximum Tier (Billing Disabled)"
  , price_id := some "maximum_tier"
  , current_period_end := some (replaceYear now (now.year + 1))
  , cancel_at_period_end := false
  , trial_end := none
  , minutes_limit := some 999999
  , cost_limit := some 999999
  , current_usage := some 0
  , has_schedule := false
  , scheduled_plan_name := none
  , scheduled_price_id := none
  , scheduled_change_date := none }

/-- Projection that erases the only time-derived field of a subscription
response. -/
def eraseTimeDerived (r : SubscriptionStatus) : SubscriptionStatus :=
  { r with current_period_end := none }

/-- Error raised through FastAPI: an HTTP status code and a detail line. -/
structure HTTPException where
  status_code : Nat
  detail : String
deriving DecidableEq, Repr

/-- Response shape of the usage-logs endpoint. -/
structure UsageLogsResponse where
  logs : List String
  has_more : Bool
  message : String
deriving DecidableEq, Repr

/-- Embedding of `get_usage_logs_endpoint` (services/billing.py lines
388-414): rejects a negative page and an items_per_page outside 1..1000
with HTTP 400, and otherwise returns empty logs with has_more False.
HTTPExceptions raised inside the try block are re-raised unchanged by the
`except HTTPException: raise` clause, and no other statement on the
validated path fails, so the catch-all 500 branch is unreachable. -/
def get_usage_logs_endpoint (page : Int) (items_per_page : Int)
    (current_user_id : String) : Except HTTPException UsageLogsResponse :=
  if page < 0 then
    .error { status_code := 400, detail := "Page must be non-negative" }
  else if items_per_page < 1 ∨ items_per_page > 1000 then
    .error { status_code := 400, detail := "Items per page must be between 1 and 1000" }
  else
    .ok { logs := [], has_more := false,
          message := "Billing disabled - no usage tracking" }

end Billing

namespace Redis

/-- Construction succeeds whenever the URL is present, non-empty and
accepted by the parser. -/
theorem initClient_ok (env : Env) (s : RedisState) (u : String)
    (hu : env.redisUrl = some u) (hne : ¬ u = "") (hwf : wellFormedUrl u = true) :
    initClient env s =
      (.ok s.nextHandle,
       { s with client := some s.nextHandle,
                nextHandle := s.nextHandle + 1,
                initCount := s.initCount + 1 }) := by
  simp [initClient, hu, hne, hwf]

/-- On a state with no handle and the flag clear, a critical section with a
succeeding probe constructs one handle, probes once and becomes ready. -/
theorem init_async_fresh_ok (env : Env) (oracle : Nat → Bool) (s : RedisState)
    (u : String) (hu : env.redisUrl = some u) (hne : ¬ u = "")
    (hwf : wellFormedUrl u = true)
    (hc : s.client = none) (hi : s.initialized = false)
    (hor : oracle s.pingCount = true) :
    initialize_async env oracle s =
      (.ok s.nextHandle,
       { client := some s.nextHandle, initialized := true,
         nextHandle := s.nextHandle + 1, initCount := s.initCount + 1,
         pingCount := s.pingCount + 1 }) := by
  obtain ⟨c, b, nh, ic, pc⟩ := s
  simp only at hc hi
  subst hc hi
  simp only [initialize_async, initClient, hu, hne, hwf]
  simp [hor]

/-- On a state with no handle and the flag clear, a critical section with a
failing probe constructs a handle, probes once, discards the handle and
reports a connection error. -/
theorem init_async_fresh_fail (env : Env) (oracle : Nat → Bool) (s : RedisState)
    (u : String) (hu : env.redisUrl = some u) (hne : ¬ u = "")
    (hwf : wellFormedUrl u = true)
    (hc : s.client = none) (hi : s.initialized = false)
    (hor : oracle s.pingCount = false) :
    initialize_async env oracle s =
      (.error .connError,
       { client := none, initialized := false,
         nextHandle := s.nextHandle + 1, initCount := s.initCount + 1,
         pingCount := s.pingCount + 1 }) := by
  obtain ⟨c, b, nh, ic, pc⟩ := s
  simp only at hc hi
  subst hc hi
  simp only [initialize_async, initClient, hu, hne, hwf]
  simp [hor]

/-- On a ready state, a critical section skips construction, probes once
and returns the existing handle. -/
theorem init_async_ready (env : Env) (oracle : Nat → Bool) (s : RedisState)
    (h : Nat) (hc : s.client = some h) (hi : s.initialized = true)
    (hor : oracle s.pingCount = true) :
    initialize_async env oracle s =
      (.ok h,
       { client := some h, initialized := true, nextHandle := s.nextHandle,
         initCount := s.initCount, pingCount := s.pingCount + 1 }) := by
  obtain ⟨c, b, nh, ic, pc⟩ := s
  simp only at hc hi
  subst hc hi
  simp [initialize_async, hor]

/-- With no REDIS_URL set, a critical section fails with the configuration
error, leaving the state untouched. -/
theorem init_async_no_url (oracle : Nat → Bool) (s : RedisState)
    (hi : s.initialized = false) :
    initialize_async ⟨none⟩ oracle s = (.error .configError, s) := by
  simp [initialize_async, initClient, hi]

/-- A first attempt that succeeds ends the retry loop at once. -/
theorem retry_first_ok (op : RedisState → Except RErr Nat × RedisState)
    (bound : Nat) (s s1 : RedisState) (a : Nat) (h : op s = (.ok a, s1)) :
    retry op bound s = (.ok a, s1) := by
  cases bound with
  | zero => simpa [retry] using h
  | succ n => simp [retry, h]

/-- With a good URL and an always-failing probe, every retry round ends in
a connection error with the handle discarded and the flag clear. -/
theorem retry_all_attempts_fail (env : Env) (oracle : Nat → Bool)
    (u : String) (hu : env.redisUrl = some u) (hne : ¬ u = "")
    (hwf : wellFormedUrl u = true) (hfail : ∀ k, oracle k = false) :
    ∀ (bound : Nat) (s : RedisState), s.client = none → s.initialized = false →
      (retry (initialize_async env oracle) bound s).1 = .error .connError ∧
      (retry (initialize_async env oracle) bound s).2.client = none ∧
      (retry (initialize_async env oracle) bound s).2.initialized = false := by
  intro bound
  induction bound with
  | zero =>
    intro s hc hi
    rw [retry, init_async_fresh_fail env oracle s u hu hne hwf hc hi (hfail _)]
    exact ⟨rfl, rfl, rfl⟩
  | succ n ih =>
    intro s hc hi
    rw [retry, init_async_fresh_fail env oracle s u hu hne hwf hc hi (hfail _)]
    exact ih _ rfl rfl

/-- A ready state passes the common-path check and is returned as is. -/
theorem get_client_ready (env : Env) (oracle : Nat → Bool) (bound : Nat)
    (s : RedisState) (h : Nat) (hc : s.client = some h) (hi : s.initialized = true) :
    get_client env oracle bound s = (.ok (some h), s) := by
  simp [get_client, hc, hi]

/-- From a state with no handle and the flag clear, with a good URL and a
succeeding probe, `get_client` constructs one fresh handle, becomes ready
and returns the module global. -/
theorem get_client_fresh_ok (env : Env) (oracle : Nat → Bool) (bound : Nat)
    (s : RedisState) (u : String) (hu : env.redisUrl = some u) (hne : ¬ u = "")
    (hwf : wellFormedUrl u = true)
    (hc : s.client = none) (hi : s.initialized = false)
    (hor : oracle s.pingCount = true) :
    get_client env oracle bound s =
      (.ok (some s.nextHandle),
       { client := some s.nextHandle, initialized := true,
         nextHandle := s.nextHandle + 1, initCount := s.initCount + 1,
         pingCount := s.pingCount + 1 }) := by
  have hstep := init_async_fresh_ok env oracle s u hu hne hwf hc hi hor
  have hr := retry_first_ok (initialize_async env oracle) bound s _ _ hstep
  simp [get_client, hc, hr]

/-- On a ready state with every probe succeeding, m further racing callers
change nothing but the probe count, and every caller observes the shared
handle. -/
theorem concurrentFirstUse_ready (env : Env) (oracle : Nat → Bool)
    (hok : ∀ k, oracle k = true) :
    ∀ (m : Nat) (h nh ic pc : Nat),
      concurrentFirstUse env oracle m ⟨some h, true, nh, ic, pc⟩ =
        (List.replicate m (Except.ok (some h)),
         ⟨some h, true, nh, ic, pc + m⟩) := by
  intro m
  induction m with
  | zero => intro h nh ic pc; simp [concurrentFirstUse]
  | succ n ih =>
    intro h nh ic pc
    have hstep := init_async_ready env oracle ⟨some h, true, nh, ic, pc⟩ h rfl rfl (hok pc)
    simp only [concurrentFirstUse, hstep]
    rw [ih]
    simp only [List.replicate_succ, Prod.mk.injEq, List.cons.injEq,
      RedisState.mk.injEq, true_and, and_true]
    omega

end Redis

/-- C1, counterexample: with two concurrent first-time callers racing past
the unguarded check and a reachable service, exactly one client
construction runs, but the initialize-plus-probe sequence does not execute
exactly once: the liveness probe runs twice, because the critical section
of `initialize_async` re-checks `_initialized` only before `initialize()`
and pings unconditionally. -/
theorem c1_counterexample :
    (Redis.firstUseRun 2).2.initCount = 1 ∧
    ¬ (Redis.firstUseRun 2).2.pingCount = 1 := by
  decide

/-- C1 (amended): for every sequence of N ≥ 1 concurrent first-time
`get_client` calls from the uninitialized state with a reachable service,
exactly one underlying client construction executes, every caller issues
its own liveness probe under the initialization lock (so N probes run, at
most one at a time), and all N calls observe the same resulting handle. -/
theorem c1_single_construction_shared_handle (n : Nat) (h : 1 ≤ n) :
    (Redis.firstUseRun n).2.initCount = 1 ∧
    (Redis.firstUseRun n).2.pingCount = n ∧
    (Redis.firstUseRun n).1 = List.replicate n (Except.ok (some 0)) := by
  obtain ⟨m, rfl⟩ : ∃ m, n = m + 1 := ⟨n - 1, by omega⟩
  have h1 : Redis.firstUseRun (m + 1) =
      (Except.ok (some 0) ::
         (Redis.concurrentFirstUse Redis.sampleEnv (fun _ => true) m
            ⟨some 0, true, 1, 1, 1⟩).1,
       (Redis.concurrentFirstUse Redis.sampleEnv (fun _ => true) m
          ⟨some 0, true, 1, 1, 1⟩).2) := rfl
  rw [h1, Redis.concurrentFirstUse_ready Redis.sampleEnv (fun _ => true)
      (fun k => rfl) m 0 1 1 1]
  exact ⟨rfl, Nat.add_comm 1 m, by simp [List.replicate_succ]⟩

/-- C1, witness for the amended statement at three concurrent callers. -/
theorem c1_witness :
    1 ≤ 3 ∧
    ((Redis.firstUseRun 3).2.initCount = 1 ∧
     (Redis.firstUseRun 3).2.pingCount = 3 ∧
     (Redis.firstUseRun 3).1 = List.replicate 3 (Except.ok (some 0))) :=
  ⟨by decide, c1_single_construction_shared_handle 3 (by decide)⟩

/-- C2: when the liveness probe fails on every attempt, `get_client`
surfaces the connection error, discards the handle and leaves the
initialized flag clear; the next `get_client` call against a reachable
service runs one more client construction — a fresh attempt rather than a
reuse of the discarded handle — and returns the newly constructed
handle. -/
theorem c2_failure_discards_handle_then_fresh_attempt
    (env : Redis.Env) (u : String) (hu : env.redisUrl = some u)
    (hne : ¬ u = "") (hwf : Redis.wellFormedUrl u = true)
    (failOracle okOracle : Nat → Bool)
    (hfail : ∀ k, failOracle k = false) (hok : ∀ k, okOracle k = true)
    (bound bound2 : Nat) (s : Redis.RedisState)
    (hc : s.client = none) (hi : s.initialized = false) :
    (Redis.get_client env failOracle bound s).1 = .error .connError ∧
    (Redis.get_client env failOracle bound s).2.client = none ∧
    (Redis.get_client env failOracle bound s).2.initialized = false ∧
    (Redis.get_client env okOracle bound2
        (Redis.get_client env failOracle bound s).2).1 =
      .ok (some (Redis.get_client env failOracle bound s).2.nextHandle) ∧
    (Redis.get_client env okOracle bound2
        (Redis.get_client env failOracle bound s).2).2.initCount =
      (Redis.get_client env failOracle bound s).2.initCount + 1 := by
  have hloop := Redis.retry_all_attempts_fail env failOracle u hu hne hwf hfail bound s hc hi
  rcases hre : Redis.retry (Redis.initialize_async env failOracle) bound s with ⟨r, s1⟩
  rw [hre] at hloop
  simp only at hloop
  obtain ⟨hr, hs1c, hs1i⟩ := hloop
  subst hr
  have hgc : Redis.get_client env failOracle bound s = (.error .connError, s1) := by
    simp [Redis.get_client, hc, hre]
  rw [hgc]
  have h2 := Redis.get_client_fresh_ok env okOracle bound2 s1 u hu hne hwf hs1c hs1i (hok _)
  rw [h2]
  exact ⟨rfl, hs1c, hs1i, rfl, rfl⟩

/-- C2, witness: a concrete run with one retry round of failing probes,
followed by a successful call. -/
theorem c2_witness :
    (Redis.get_client ⟨some "redis://a"⟩ (fun _ => false) 1 Redis.initialState).1 =
      .error .connError ∧
    (Redis.get_client ⟨some "redis://a"⟩ (fun _ => true) 0
        (Redis.get_client ⟨some "redis://a"⟩ (fun _ => false) 1 Redis.initialState).2).1 =
      .ok (some (Redis.get_client ⟨some "redis://a"⟩ (fun _ => false) 1
        Redis.initialState).2.nextHandle) :=
  ⟨(c2_failure_discards_handle_then_fresh_attempt ⟨some "redis://a"⟩ "redis://a" rfl
      (by decide) (by decide) (fun _ => false) (fun _ => true) (fun k => rfl)
      (fun k => rfl) 1 0 Redis.initialState rfl rfl).1,
   (c2_failure_discards_handle_then_fresh_attempt ⟨some "redis://a"⟩ "redis://a" rfl
      (by decide) (by decide) (fun _ => false) (fun _ => true) (fun k => rfl)
      (fun k => rfl) 1 0 Redis.initialState rfl rfl).2.2.2.1⟩

/-- C3: with a healthy connection, `get` returns the stored value when the
underlying client holds one, returns the caller-supplied default unchanged
when the key is absent, and never raises: absence is not an error. -/
theorem c3_get_returns_stored_value_or_default
    (cfg : Redis.Cfg) (key : String) (dflt : Option String) (w : Redis.World)
    (h : Nat) (hc : w.rs.client = some h) (hi : w.rs.initialized = true) :
    (∀ v, Redis.storeLookup w.store key = some v →
      (Redis.get cfg key dflt w).1 = .ok (some v)) ∧
    (Redis.storeLookup w.store key = none →
      (Redis.get cfg key dflt w).1 = .ok dflt) ∧
    (∀ e, ¬ (Redis.get cfg key dflt w).1 = .error e) := by
  have hg := Redis.get_client_ready cfg.env cfg.oracle cfg.bound w.rs h hc hi
  refine ⟨fun v hv => ?_, fun hn => ?_, fun e => ?_⟩
  · simp [Redis.get, hg, hv]
  · simp [Redis.get, hg, hn]
  · cases hl : Redis.storeLookup w.store key <;> simp [Redis.get, hg, hl]

/-- C3, witness: a ready world holding one key, read back with and without
a hit. -/
theorem c3_witness :
    (Redis.get ⟨⟨some "redis://a"⟩, fun _ => true, 0⟩ "k" (some "d")
        ⟨⟨some 0, true, 1, 1, 1⟩, ⟨[("k", "v", none)], [], []⟩⟩).1 = .ok (some "v") ∧
    (Redis.get ⟨⟨some "redis://a"⟩, fun _ => true, 0⟩ "absent" (some "d")
        ⟨⟨some 0, true, 1, 1, 1⟩, ⟨[("k", "v", none)], [], []⟩⟩).1 = .ok (some "d") :=
  ⟨(c3_get_returns_stored_value_or_default ⟨⟨some "redis://a"⟩, fun _ => true, 0⟩
      "k" (some "d") ⟨⟨some 0, true, 1, 1, 1⟩, ⟨[("k", "v", none)], [], []⟩⟩
      0 rfl rfl).1 "v" (by decide),
   (c3_get_returns_stored_value_or_default ⟨⟨some "redis://a"⟩, fun _ => true, 0⟩
      "absent" (some "d") ⟨⟨some 0, true, 1, 1, 1⟩, ⟨[("k", "v", none)], [], []⟩⟩
      0 rfl rfl).2.1 (by decide)⟩

/-- C4: every public operation first obtains a ready client through
`get_client`, and when that fails the operation reports exactly the same
error: no operation catches or downgrades connection failures. -/
theorem c4_operations_propagate_connection_errors
    (cfg : Redis.Cfg) (w : Redis.World) (e : Redis.RErr) (rs1 : Redis.RedisState)
    (hg : Redis.get_client cfg.env cfg.oracle cfg.bound w.rs = (.error e, rs1))
    (key value channel message pattern : String) (ex : Option Nat) (nx : Bool)
    (vs : List String) (start stop : Int) (dflt : Option String) :
    (Redis.set cfg key value ex nx w).1 = .error e ∧
    (Redis.get cfg key dflt w).1 = .error e ∧
    (Redis.delete cfg key w).1 = .error e ∧
    (Redis.publish cfg channel message w).1 = .error e ∧
    (Redis.create_pubsub cfg w).1 = .error e ∧
    (Redis.rpush cfg key vs w).1 = .error e ∧
    (Redis.lrange cfg key start stop w).1 = .error e ∧
    (Redis.keys cfg pattern w).1 = .error e := by
  refine ⟨?_, ?_, ?_, ?_, ?_, ?_, ?_, ?_⟩ <;>
    simp [Redis.set, Redis.get, Redis.delete, Redis.publish, Redis.create_pubsub,
      Redis.rpush, Redis.lrange, Redis.keys, hg]

/-- C4, witness: with no REDIS_URL, every operation surfaces the
configuration error that `get_client` produced. -/
theorem c4_witness :
    (Redis.set ⟨⟨none⟩, fun _ => true, 0⟩ "k" "v" none false
        ⟨Redis.initialState, Redis.emptyStore⟩).1 = .error .configError ∧
    (Redis.keys ⟨⟨none⟩, fun _ => true, 0⟩ "*"
        ⟨Redis.initialState, Redis.emptyStore⟩).1 = .error .configError :=
  ⟨(c4_operations_propagate_connection_errors ⟨⟨none⟩, fun _ => true, 0⟩
      ⟨Redis.initialState, Redis.emptyStore⟩ .configError Redis.initialState
      (by decide) "k" "v" "c" "m" "*" none false [] 0 0 none).1,
   (c4_operations_propagate_connection_errors ⟨⟨none⟩, fun _ => true, 0⟩
      ⟨Redis.initialState, Redis.emptyStore⟩ .configError Redis.initialState
      (by decide) "k" "v" "c" "m" "*" none false [] 0 0 none).2.2.2.2.2.2.2⟩

/-- C5: `initialize` fails with the configuration error exactly when the
connection URL is absent, empty, or rejected by the URL parser; otherwise
it constructs and returns a client handle, and no liveness probe — no
network round-trip — happens in this step. -/
theorem c5_initClient_validates_config (env : Redis.Env) (s : Redis.RedisState) :
    (((Redis.initClient env s).1 = .error .configError) ↔
      (env.redisUrl = none ∨ env.redisUrl = some "" ∨
        ∃ u, env.redisUrl = some u ∧ Redis.wellFormedUrl u = false)) ∧
    (∀ u, env.redisUrl = some u → ¬ u = "" → Redis.wellFormedUrl u = true →
      (Redis.initClient env s).1 = .ok s.nextHandle ∧
      (Redis.initClient env s).2.client = some s.nextHandle ∧
      (Redis.initClient env s).2.pingCount = s.pingCount) := by
  obtain ⟨url⟩ := env
  cases url with
  | none =>
    refine ⟨by simp [Redis.initClient], fun u hu => ?_⟩
    exact absurd hu (by simp)
  | some u =>
    by_cases he : u = ""
    · subst he
      refine ⟨by simp [Redis.initClient], fun u2 hu2 hne2 _ => ?_⟩
      simp only [Option.some.injEq] at hu2
      exact absurd hu2.symm hne2
    · by_cases hwf : Redis.wellFormedUrl u = true
      · refine ⟨by simp [Redis.initClient, he, hwf], fun u2 hu2 hne2 hwf2 => ?_⟩
        simp only [Option.some.injEq] at hu2
        subst hu2
        rw [Redis.initClient_ok ⟨some u⟩ s u rfl hne2 hwf2]
        exact ⟨rfl, rfl, rfl⟩
      · have hwf2 : Redis.wellFormedUrl u = false := by
          cases hxx : Redis.wellFormedUrl u
          · rfl
          · exact absurd hxx hwf
        refine ⟨?_, fun u2 hu2 hne2 hok => ?_⟩
        · simp [Redis.initClient, he, hwf2]
        · simp only [Option.some.injEq] at hu2
          subst hu2
          rw [hok] at hwf2
          cases hwf2

/-- C5, witness: a missing URL fails with the configuration error, and a
well-formed URL yields a handle. -/
theorem c5_witness :
    (Redis.initClient ⟨none⟩ Redis.initialState).1 = .error .configError ∧
    (Redis.initClient ⟨some "redis://a"⟩ Redis.initialState).1 = .ok 0 :=
  ⟨(c5_initClient_validates_config ⟨none⟩ Redis.initialState).1.mpr (Or.inl rfl),
   ((c5_initClient_validates_config ⟨some "redis://a"⟩ Redis.initialState).2
      "redis://a" rfl (by decide) (by decide)).1⟩

/-- C6: `close` is safe in every state: afterwards the handle is cleared
and the initialized flag is reset, and the underlying handle shutdown runs
exactly when a handle existed — a call with no handle is a no-op that does
not raise. -/
theorem c6_close_is_safe_in_every_state (s : Redis.RedisState) :
    (Redis.close s).1.client = none ∧
    (Redis.close s).1.initialized = false ∧
    (Redis.close s).1.nextHandle = s.nextHandle ∧
    (Redis.close s).2 = (if s.client.isSome then 1 else 0) := by
  rcases hc : s.client with _ | v <;> simp [Redis.close, hc]

/-- C7: after `close`, the very next cache operation triggers a fresh
initialization: one more client construction runs, the state becomes ready
again, and the handle it now holds is a new one, distinct from the handle
closed before. -/
theorem c7_close_then_next_operation_reinitializes
    (cfg : Redis.Cfg) (u : String) (hu : cfg.env.redisUrl = some u)
    (hne : ¬ u = "") (hwf : Redis.wellFormedUrl u = true)
    (hok : ∀ k, cfg.oracle k = true)
    (key : String) (dflt : Option String) (st : Redis.Store)
    (s : Redis.RedisState) (h : Nat) (hc : s.client = some h)
    (hi : s.initialized = true) (hfresh : h < s.nextHandle) :
    (Redis.close s).1.client = none ∧
    (Redis.close s).1.initialized = false ∧
    (Redis.get cfg key dflt ⟨(Redis.close s).1, st⟩).2.rs.initCount = s.initCount + 1 ∧
    (Redis.get cfg key dflt ⟨(Redis.close s).1, st⟩).2.rs.initialized = true ∧
    (Redis.get cfg key dflt ⟨(Redis.close s).1, st⟩).2.rs.client = some s.nextHandle ∧
    ¬ s.nextHandle = h := by
  have hcl : (Redis.close s).1 = { s with client := none, initialized := false } := by
    simp [Redis.close, hc]
  have hg := Redis.get_client_fresh_ok cfg.env cfg.oracle cfg.bound
      { s with client := none, initialized := false } u hu hne hwf rfl rfl (hok _)
  rw [hcl]
  refine ⟨rfl, rfl, ?_, ?_, ?_, by omega⟩ <;> simp [Redis.get, hg]

/-- C7, witness: closing a ready state with handle 0 and reading a key
afterwards constructs handle 1. -/
theorem c7_witness :
    (Redis.get ⟨⟨some "redis://a"⟩, fun _ => true, 0⟩ "k" none
        ⟨(Redis.close ⟨some 0, true, 1, 1, 1⟩).1, Redis.emptyStore⟩).2.rs.initCount = 2 ∧
    (Redis.get ⟨⟨some "redis://a"⟩, fun _ => true, 0⟩ "k" none
        ⟨(Redis.close ⟨some 0, true, 1, 1, 1⟩).1, Redis.emptyStore⟩).2.rs.client = some 1 :=
  ⟨(c7_close_then_next_operation_reinitializes ⟨⟨some "redis://a"⟩, fun _ => true, 0⟩
      "redis://a" rfl (by decide) (by decide) (fun k => rfl) "k" none Redis.emptyStore
      ⟨some 0, true, 1, 1, 1⟩ 0 rfl rfl (by decide)).2.2.1,
   (c7_close_then_next_operation_reinitializes ⟨⟨some "redis://a"⟩, fun _ => true, 0⟩
      "redis://a" rfl (by decide) (by decide) (fun k => rfl) "k" none Redis.emptyStore
      ⟨some 0, true, 1, 1, 1⟩ 0 rfl rfl (by decide)).2.2.2.2.1⟩

/-- C8: the safety TTL constant equals 86400 seconds, and `set` never
applies it on its own: called with its defaults (`ex = None`, `nx =
False`) on a healthy connection it succeeds and the entry is stored with
no expiry at all. -/
theorem c8_ttl_constant_and_no_automatic_expiry
    (cfg : Redis.Cfg) (key value : String) (w : Redis.World) (h : Nat)
    (hc : w.rs.client = some h) (hi : w.rs.initialized = true) :
    Redis.REDIS_KEY_TTL = 86400 ∧
    Redis.set_default_ex = none ∧
    (Redis.set cfg key value Redis.set_default_ex Redis.set_default_nx w).1 =
      .ok (some true) ∧
    Redis.storeEntry
      (Redis.set cfg key value Redis.set_default_ex Redis.set_default_nx w).2.store
      key = some (value, none) := by
  have hg := Redis.get_client_ready cfg.env cfg.oracle cfg.bound w.rs h hc hi
  refine ⟨rfl, rfl, ?_, ?_⟩
  · simp [Redis.set, hg, Redis.storeSet, Redis.set_default_ex, Redis.set_default_nx]
  · simp [Redis.set, hg, Redis.storeSet, Redis.storeEntry, Redis.set_default_ex,
      Redis.set_default_nx, List.find?]

/-- C8, witness: a concrete default-argument `set` stores the value with
no expiry. -/
theorem c8_witness :
    Redis.REDIS_KEY_TTL = 86400 ∧
    Redis.storeEntry
      (Redis.set ⟨⟨some "redis://a"⟩, fun _ => true, 0⟩ "k" "v"
        Redis.set_default_ex Redis.set_default_nx
        ⟨⟨some 0, true, 1, 1, 1⟩, Redis.emptyStore⟩).2.store "k" = some ("v", none) :=
  ⟨(c8_ttl_constant_and_no_automatic_expiry ⟨⟨some "redis://a"⟩, fun _ => true, 0⟩
      "k" "v" ⟨⟨some 0, true, 1, 1, 1⟩, Redis.emptyStore⟩ 0 rfl rfl).1,
   (c8_ttl_constant_and_no_automatic_expiry ⟨⟨some "redis://a"⟩, fun _ => true, 0⟩
      "k" "v" ⟨⟨some 0, true, 1, 1, 1⟩, Redis.emptyStore⟩ 0 rfl rfl).2.2.2⟩

/-- C9: the billing endpoints are static stubs independent of the
authenticated user: check-status responses are identical for any two user
ids, and subscription responses for any two user ids agree at the same
instant and differ at most in the time-derived period-end field across
instants; no state is consulted. -/
theorem c9_billing_endpoints_user_independent (u v : String)
    (t t2 : Billing.DateTime) :
    Billing.check_status u = Billing.check_status v ∧
    Billing.get_subscription u t = Billing.get_subscription v t ∧
    Billing.eraseTimeDerived (Billing.get_subscription u t) =
      Billing.eraseTimeDerived (Billing.get_subscription v t2) :=
  ⟨rfl, rfl, rfl⟩

/-- C10: the usage-logs endpoint answers HTTP 400 exactly when the page is
negative or the page size lies outside 1..1000, and on every valid input
returns the empty log list with has_more False. -/
theorem c10_usage_logs_validates_pagination (page items_per_page : Int)
    (uid : String) :
    ((∃ d, Billing.get_usage_logs_endpoint page items_per_page uid =
        .error ⟨400, d⟩) ↔
      (page < 0 ∨ items_per_page < 1 ∨ items_per_page > 1000)) ∧
    (Billing.get_usage_logs_endpoint page items_per_page uid =
        .ok ⟨[], false, "Billing disabled - no usage tracking"⟩ ∨
      ∃ d, Billing.get_usage_logs_endpoint page items_per_page uid =
        .error ⟨400, d⟩) := by
  unfold Billing.get_usage_logs_endpoint
  split_ifs with h1 h2
  · exact ⟨⟨fun _ => Or.inl h1, fun _ => ⟨_, rfl⟩⟩, Or.inr ⟨_, rfl⟩⟩
  · exact ⟨⟨fun _ => Or.inr h2, fun _ => ⟨_, rfl⟩⟩, Or.inr ⟨_, rfl⟩⟩
  · refine ⟨⟨fun hd => ?_, fun hbad => ?_⟩, Or.inl rfl⟩
    · obtain ⟨d, hd⟩ := hd
      exact hd.elim
    · rcases hbad with hp | hrest
      · exact absurd hp h1
      · exact absurd hrest h2

